import Mathlib

/-!
Shallow embedding of the decision-and-recommendation engine of
`src/app.py` (Diabetes Risk Assessment Tool).

The script collects eight form fields, calls an opaque pre-trained
model's `predict_proba`, thresholds the resulting probability into a
band, prints a fixed recommendation list keyed by the band, and — when
the model exposes `feature_importances_` — ranks the features by weight
descending, takes the top 3, and emits one templated sentence per
matched feature.

Modelling conventions:
* probabilities, importance weights, `bmi` and `hba1c_level` are `ℚ`
  (the Python floats compare exactly like their decimal literals at all
  thresholds used by the script);
* a templated output sentence is represented by which template fired and
  the interpolated input value (`Attribution`), abstracting only
  Python's number-to-string formatting;
* `model.predict_proba` together with the pipeline's preprocessor is an
  opaque collaborator `predict_proba : InputRecord → Except String ℚ`
  (`Except.error e` models a raised exception with message `str(e)`).
-/

/-- Python's case-sensitive substring test `needle in hay`, prefix step:
does `b` start with `a`? -/
def charsStartWith : List Char → List Char → Bool
  | [], _ => true
  | _ :: _, [] => false
  | a :: as, b :: bs => a == b && charsStartWith as bs

/-- Python's case-sensitive substring test `needle in hay`, scanning step. -/
def charsContains (n : List Char) : List Char → Bool
  | [] => n.isEmpty
  | b :: bs => charsStartWith n (b :: bs) || charsContains n bs

/-- Python's `needle in hay` on strings (case-sensitive substring containment),
as used by the attribution chain of `src/app.py` lines 128-139. -/
def strIn (needle hay : String) : Bool :=
  charsContains needle.data hay.data

/-- The eight raw form fields of `src/app.py` lines 32-42, exactly as the
script holds them before assembling `input_data`: `hypertension` and
`heart_disease` are the selectbox strings `"Yes"`/`"No"` (the attribution
conditions at lines 136-138 compare these raw strings). -/
structure InputRecord where
  gender : String
  age : ℕ
  hypertension : String
  heart_disease : String
  smoking_history : String
  bmi : ℚ
  hba1c_level : ℚ
  blood_glucose_level : ℕ
deriving DecidableEq

/-- The threshold chain of `src/app.py` lines 69-77: `risk_score < 0.2` is
Low, otherwise `risk_score < 0.5` is Moderate, otherwise High. -/
def risk_level (risk_score : ℚ) : String :=
  if risk_score < 0.2 then "Low Risk"
  else if risk_score < 0.5 then "Moderate Risk"
  else "High Risk"

/-- The Low-risk bullet list of `src/app.py` lines 94-98. -/
def lowRecs : List String :=
  ["Maintain your healthy lifestyle",
   "Continue regular check-ups",
   "Monitor your blood sugar levels annually"]

/-- The Moderate-risk bullet list of `src/app.py` lines 100-105. -/
def moderateRecs : List String :=
  ["Consider lifestyle modifications (diet, exercise)",
   "Monitor your blood sugar levels more frequently",
   "Consult with your healthcare provider about prevention strategies",
   "Consider losing weight if overweight"]

/-- The High-risk bullet list of `src/app.py` lines 107-112. -/
def highRecs : List String :=
  ["Please consult with a healthcare provider immediately",
   "Significant lifestyle changes are recommended",
   "Regular monitoring of blood sugar levels is essential",
   "You may need medical intervention"]

/-- The `if risk_level == "Low Risk" / elif ... / else` dispatch of
`src/app.py` lines 93-112 selecting the recommendation block. -/
def recommendations (level : String) : List String :=
  if level = "Low Risk" then lowRecs
  else if level = "Moderate Risk" then moderateRecs
  else highRecs

/-- One templated attribution sentence of `src/app.py` lines 128-139,
identified by which template fired together with the interpolated input
value (the f-string's number formatting is presentation and not modelled).
The constructors are listed in the source's branch order. -/
inductive Attribution where
  | hba1cFactor (v : ℚ)
  | glucoseFactor (v : ℕ)
  | bmiFactor (v : ℚ)
  | ageFactor (v : ℕ)
  | hypertensionFactor
  | heartDiseaseFactor
deriving DecidableEq

/-- The `if/elif` substring-match chain of `src/app.py` lines 128-139,
applied to one ranked feature name: the first matching branch emits its
sentence; the hypertension / heart-disease branches additionally require
the raw form value to be `"Yes"`; no branch matching means no output. -/
def interpret (inp : InputRecord) (feature_name : String) : Option Attribution :=
  if strIn "HbA1c_level" feature_name then some (.hba1cFactor inp.hba1c_level)
  else if strIn "blood_glucose_level" feature_name then some (.glucoseFactor inp.blood_glucose_level)
  else if strIn "bmi" feature_name then some (.bmiFactor inp.bmi)
  else if strIn "age" feature_name then some (.ageFactor inp.age)
  else if strIn "hypertension" feature_name ∧ inp.hypertension = "Yes" then some .hypertensionFactor
  else if strIn "heart_disease" feature_name ∧ inp.heart_disease = "Yes" then some .heartDiseaseFactor
  else none

/-- A row of the `feature_importance` DataFrame of `src/app.py` line 120,
tagged with its positional index: `(position, (feature name, importance))`. -/
abbrev Row : Type := ℕ × String × ℚ

/-- The DataFrame positions `0, 1, 2, ...` attached to the rows, starting
at `i` (pandas' `np.arange(len(items))` in `nargsort`). -/
def enumFromIdx (i : ℕ) : List (String × ℚ) → List Row
  | [] => []
  | a :: t => (i, a) :: enumFromIdx (i + 1) t

/-- One step of the stable ascending insertion sort by importance weight
(numpy argsort with its default quicksort kind runs a stable insertion
sort on arrays below 16 elements, which covers the small frame of
`src/app.py`): a new row is placed before the first resident row of
weight greater than or equal to its own. -/
def insRow (r : Row) : List Row → List Row
  | [] => [r]
  | s :: t => if r.2.2 ≤ s.2.2 then r :: s :: t else s :: insRow r t

/-- Stable ascending insertion sort by importance weight; rows arriving
earlier in the list are inserted later and therefore land after rows of
equal weight already placed — i.e. equal weights keep their list order. -/
def sortRowsAsc : List Row → List Row
  | [] => []
  | r :: t => insRow r (sortRowsAsc t)

/-- The descending sort of the importance frame at `src/app.py` line 121
(sort_values by importance with ascending=False), as the pandas nargsort
routine computes it: reverse the rows, argsort them ascending with a
stable kernel, and reverse the result — which yields weight-descending
order with ties in original DataFrame order. -/
def sortValuesDesc (rows : List (String × ℚ)) : List Row :=
  (sortRowsAsc (enumFromIdx 0 rows).reverse).reverse

/-- `.head(3)` of `src/app.py` line 121: the top-3 rows by importance. -/
def top_features (rows : List (String × ℚ)) : List Row :=
  (sortValuesDesc rows).take 3

/-- The `for _, row in top_features.iterrows()` loop of `src/app.py`
lines 123-139: each selected feature name runs through the template
chain; unmatched names contribute nothing. -/
def key_factors (inp : InputRecord) (rows : List (String × ℚ)) : List Attribution :=
  (top_features rows).filterMap fun r => interpret inp r.2.1

/-- Everything the success path of `src/app.py` lines 66-139 renders:
the risk score, its band label, the band's recommendation block, and —
only when the classifier exposes `feature_importances_` — the key-factor
sentences. -/
structure Displayed where
  risk_score : ℚ
  level : String
  recs : List String
  factors : Option (List Attribution)
deriving DecidableEq

/-- Outcome of one form submission: either the rendered results or the
`st.error` banner of `src/app.py` line 142. -/
inductive Outcome where
  | results (d : Displayed)
  | errorBanner (msg : String)
deriving DecidableEq

/-- The `if submitted:` block of `src/app.py` lines 47-142: one
`predict_proba` call inside `try`; on success the band, recommendations
and (if `importances` is present, zipped against `feature_names` as the
DataFrame constructor at line 120 aligns them) the attribution section
are rendered; a raised exception is caught at this boundary and rendered
as the error banner `"An error occurred: " ++ str(e)` instead, with no
partial result. -/
def runSubmission (predict_proba : InputRecord → Except String ℚ)
    (importances : Option (List ℚ)) (feature_names : List String)
    (inp : InputRecord) : Outcome :=
  match predict_proba inp with
  | .error e => .errorBanner ("An error occurred: " ++ e)
  | .ok risk_score =>
      .results
        { risk_score := risk_score
          level := risk_level risk_score
          recs := recommendations (risk_level risk_score)
          factors := importances.map fun imps =>
            key_factors inp (feature_names.zip imps) }

/-- Rank of a band label under the order Low < Moderate < High, for
stating monotonicity of the threshold chain; any label other than the
three produced by `risk_level` is irrelevant (mapped to 2). -/
def bandRank (level : String) : ℕ :=
  if level = "Low Risk" then 0
  else if level = "Moderate Risk" then 1
  else 2

/-- The end-to-end scenario record of the specification: gender Female,
age 45, no hypertension, no heart disease, never smoked, BMI 27.5,
HbA1c 6.0, blood glucose 130, as the form of `src/app.py` holds it. -/
def exampleRecord : InputRecord :=
  { gender := "Female"
    age := 45
    hypertension := "No"
    heart_disease := "No"
    smoking_history := "Never"
    bmi := 27.5
    hba1c_level := 6.0
    blood_glucose_level := 130 }

/-- Order obtained after the inner ascending stable argsort of the
row-reversed frame: weights ascend, and equal weights carry descending
original positions (because the frame was reversed first). -/
def ascRow (a b : Row) : Prop :=
  a.2.2 < b.2.2 ∨ (a.2.2 = b.2.2 ∧ b.1 < a.1)

/-- Order of the final descending sort: weights descend, and equal
weights keep their original DataFrame positions. -/
def descRow (a b : Row) : Prop :=
  b.2.2 < a.2.2 ∨ (a.2.2 = b.2.2 ∧ a.1 < b.1)

theorem perm_insRow (r : Row) (l : List Row) : List.Perm (insRow r l) (r :: l) := by
  induction l with
  | nil => simp [insRow]
  | cons s t ih =>
    by_cases h : r.2.2 ≤ s.2.2
    · simp [insRow, h]
    · simp only [insRow, if_neg h]
      exact (ih.cons s).trans (List.Perm.swap r s t)

theorem perm_sortRowsAsc (l : List Row) : List.Perm (sortRowsAsc l) l := by
  induction l with
  | nil => simp [sortRowsAsc]
  | cons r t ih => exact (perm_insRow r _).trans (ih.cons r)

theorem pairwise_insRow (r : Row) (l : List Row)
    (hidx : ∀ s ∈ l, s.1 < r.1) (hl : l.Pairwise ascRow) :
    (insRow r l).Pairwise ascRow := by
  induction l with
  | nil => simp [insRow, ascRow]
  | cons s t ih =>
    rcases List.pairwise_cons.mp hl with ⟨hs, ht⟩
    by_cases h : r.2.2 ≤ s.2.2
    · simp only [insRow, if_pos h]
      refine List.pairwise_cons.mpr ⟨?_, hl⟩
      intro u hu
      rcases List.mem_cons.mp hu with rfl | hu'
      · rcases lt_or_eq_of_le h with hlt | heq
        · exact Or.inl hlt
        · exact Or.inr ⟨heq, hidx u (List.mem_cons_self u t)⟩
      · have hsu := hs u hu'
        rcases lt_or_eq_of_le h with h2 | h2
        · rcases hsu with hlt | ⟨heq, _⟩
          · exact Or.inl (h2.trans hlt)
          · exact Or.inl (heq ▸ h2)
        · rcases hsu with hlt | ⟨heq, _⟩
          · exact Or.inl (h2 ▸ hlt)
          · exact Or.inr ⟨h2.trans heq, hidx u (List.mem_cons_of_mem s hu')⟩
    · simp only [insRow, if_neg h]
      refine List.pairwise_cons.mpr
        ⟨?_, ih (fun u hu => hidx u (List.mem_cons_of_mem s hu)) ht⟩
      intro u hu
      rcases List.mem_cons.mp ((perm_insRow r t).mem_iff.mp hu) with rfl | hu'
      · exact Or.inl (not_le.mp h)
      · exact hs u hu'

theorem pairwise_sortRowsAsc (l : List Row)
    (h : l.Pairwise fun a b => b.1 < a.1) :
    (sortRowsAsc l).Pairwise ascRow := by
  induction l with
  | nil => simp [sortRowsAsc]
  | cons r t ih =>
    rcases List.pairwise_cons.mp h with ⟨hr, ht⟩
    refine pairwise_insRow r _ ?_ (ih ht)
    intro s hs
    exact hr s ((perm_sortRowsAsc t).mem_iff.mp hs)

theorem mem_enumFromIdx_le (i : ℕ) (l : List (String × ℚ)) :
    ∀ s ∈ enumFromIdx i l, i ≤ s.1 := by
  induction l generalizing i with
  | nil => intro s hs; cases hs
  | cons a t ih =>
    intro s hs
    rcases List.mem_cons.mp hs with rfl | hs'
    · exact le_refl _
    · exact Nat.le_of_succ_le (ih (i + 1) s hs')

theorem pairwise_enumFromIdx (i : ℕ) (l : List (String × ℚ)) :
    (enumFromIdx i l).Pairwise fun a b => a.1 < b.1 := by
  induction l generalizing i with
  | nil => exact List.Pairwise.nil
  | cons a t ih =>
    refine List.pairwise_cons.mpr ⟨?_, ih (i + 1)⟩
    intro s hs
    exact Nat.lt_of_succ_le (mem_enumFromIdx_le (i + 1) t s hs)

theorem pairwise_sortValuesDesc (rows : List (String × ℚ)) :
    (sortValuesDesc rows).Pairwise descRow := by
  unfold sortValuesDesc
  refine List.pairwise_reverse.mpr ?_
  have hrev : ((enumFromIdx 0 rows).reverse).Pairwise fun a b => b.1 < a.1 :=
    List.pairwise_reverse.mpr (pairwise_enumFromIdx 0 rows)
  refine (pairwise_sortRowsAsc _ hrev).imp ?_
  intro a b hab
  rcases hab with hlt | ⟨heq, hidx⟩
  · exact Or.inl hlt
  · exact Or.inr ⟨heq.symm, hidx⟩

theorem perm_sortValuesDesc (rows : List (String × ℚ)) :
    List.Perm (sortValuesDesc rows) (enumFromIdx 0 rows) :=
  ((List.reverse_perm _).trans (perm_sortRowsAsc _)).trans (List.reverse_perm _)

theorem length_filterMap_eq_countMatched {α β : Type} (f : α → Option β) (l : List α) :
    (l.filterMap f).length = (l.filter fun a => (f a).isSome).length := by
  induction l with
  | nil => rfl
  | cons a t ih =>
    cases h : f a with
    | none => simp [List.filterMap_cons, List.filter_cons, h, ih]
    | some b => simp [List.filterMap_cons, List.filter_cons, h, ih]

theorem length_filterMap_lt_of_none {α β : Type} (f : α → Option β) (l : List α)
    (r : α) (hr : r ∈ l) (hnone : f r = none) :
    (l.filterMap f).length < l.length := by
  induction l with
  | nil => cases hr
  | cons a t ih =>
    rcases List.mem_cons.mp hr with rfl | hmem
    · simp only [List.filterMap_cons, hnone, List.length_cons]
      exact Nat.lt_succ_of_le (List.length_filterMap_le f t)
    · cases h : f a with
      | none =>
        simp only [List.filterMap_cons, h, List.length_cons]
        exact Nat.lt_succ_of_lt (ih hmem)
      | some b =>
        simp only [List.filterMap_cons, h, List.length_cons]
        exact Nat.succ_lt_succ (ih hmem)

/-- Claim C1: for every probability p in [0,1] the threshold chain of
`src/app.py` lines 69-77 assigns exactly one band, with exact half-open
lower-inclusive boundaries — [0,0.2) is Low, [0.2,0.5) is Moderate and
[0.5,1] is High — and in particular 0 is Low, 0.2 is Moderate, 0.5 is
High and 1 is High. -/
theorem c1_classifier_bands :
    (∀ p : ℚ, 0 ≤ p → p ≤ 1 →
      (risk_level p = "Low Risk" ∨ risk_level p = "Moderate Risk" ∨
        risk_level p = "High Risk") ∧
      (risk_level p = "Low Risk" ↔ p < 0.2) ∧
      (risk_level p = "Moderate Risk" ↔ 0.2 ≤ p ∧ p < 0.5) ∧
      (risk_level p = "High Risk" ↔ 0.5 ≤ p)) ∧
    risk_level 0 = "Low Risk" ∧ risk_level 0.2 = "Moderate Risk" ∧
    risk_level 0.5 = "High Risk" ∧ risk_level 1 = "High Risk" := by
  refine ⟨?_, by norm_num [risk_level], by norm_num [risk_level],
    by norm_num [risk_level], by norm_num [risk_level]⟩
  intro p hp0 hp1
  unfold risk_level
  split_ifs with h1 h2
  · refine ⟨Or.inl rfl, ⟨fun _ => h1, fun _ => rfl⟩,
      ⟨fun h => absurd h (by decide), fun h => absurd h1 (not_lt.mpr h.1)⟩,
      ⟨fun h => absurd h (by decide), fun h => ?_⟩⟩
    exact absurd h1 (not_lt.mpr (le_trans (by norm_num) h))
  · exact ⟨Or.inr (Or.inl rfl),
      ⟨fun h => absurd h (by decide), fun h => absurd h h1⟩,
      ⟨fun _ => ⟨not_lt.mp h1, h2⟩, fun _ => rfl⟩,
      ⟨fun h => absurd h (by decide), fun h => absurd h2 (not_lt.mpr h)⟩⟩
  · exact ⟨Or.inr (Or.inr rfl),
      ⟨fun h => absurd h (by decide), fun h => absurd h h1⟩,
      ⟨fun h => absurd h (by decide), fun h => absurd h.2 h2⟩,
      ⟨fun _ => not_lt.mp h2, fun _ => rfl⟩⟩

/-- Witness for C1 at the concrete probability 0.35. -/
theorem c1_classifier_bands_witness :
    risk_level (35 / 100 : ℚ) = "Moderate Risk" :=
  ((c1_classifier_bands.1 (35 / 100) (by norm_num) (by norm_num)).2.2.1).mpr
    (by norm_num)

/-- Claim C9: the band is a pure function of the probability alone (it is
a function of `p` and nothing else by construction), and it is monotone:
p ≤ q implies the band of p is at most the band of q under
Low < Moderate < High. -/
theorem c9_band_monotone :
    ∀ p q : ℚ, p ≤ q → bandRank (risk_level p) ≤ bandRank (risk_level q) := by
  intro p q hpq
  unfold risk_level
  split_ifs <;> first | decide | (exfalso; linarith)

/-- Witness for C9 at the concrete probabilities 0.1 and 0.6. -/
theorem c9_band_monotone_witness :
    bandRank (risk_level 0.1) ≤ bandRank (risk_level 0.6) :=
  c9_band_monotone 0.1 0.6 (by norm_num)

/-- Claim C2: every rendered band comes with exactly its fixed
recommendation block — Low with its 3-item list, Moderate and High with
their 4-item lists, nothing else is ever emitted — and the end-to-end
scenario (the specification's example record through a stub predictor
returning 0.35) renders the Moderate band with the exact Moderate list. -/
theorem c2_band_recs_consistent :
    (∀ (predict : InputRecord → Except String ℚ) (imps : Option (List ℚ))
        (fns : List String) (inp : InputRecord) (p : ℚ) (d : Displayed),
      predict inp = Except.ok p →
      runSubmission predict imps fns inp = Outcome.results d →
      d.recs = recommendations d.level) ∧
    (recommendations "Low Risk" = lowRecs ∧
      recommendations "Moderate Risk" = moderateRecs ∧
      recommendations "High Risk" = highRecs) ∧
    (lowRecs.length = 3 ∧ moderateRecs.length = 4 ∧ highRecs.length = 4) ∧
    (∀ level : String, recommendations level = lowRecs ∨
      recommendations level = moderateRecs ∨ recommendations level = highRecs) ∧
    (∀ fns : List String,
      runSubmission (fun _ => Except.ok 0.35) none fns exampleRecord =
        Outcome.results ⟨0.35, "Moderate Risk", moderateRecs, none⟩) := by
  refine ⟨?_, ⟨by decide, by decide, by decide⟩, ⟨by decide, by decide, by decide⟩,
    ?_, ?_⟩
  · intro predict imps fns inp p d hp hrun
    rw [runSubmission, hp] at hrun
    cases hrun
    rfl
  · intro level
    unfold recommendations
    split_ifs
    · exact Or.inl rfl
    · exact Or.inr (Or.inl rfl)
    · exact Or.inr (Or.inr rfl)
  · intro fns
    have h : risk_level (0.35 : ℚ) = "Moderate Risk" := by norm_num [risk_level]
    rw [runSubmission]
    show Outcome.results ⟨0.35, risk_level 0.35, recommendations (risk_level 0.35), none⟩ = _
    rw [h]
    rfl

/-- Witness for C2: the consistency component applied to the concrete
stub submission of the scenario. -/
theorem c2_band_recs_consistent_witness :
    (⟨0.35, "Moderate Risk", moderateRecs, none⟩ : Displayed).recs =
      recommendations (⟨(0.35 : ℚ), "Moderate Risk", moderateRecs, none⟩ : Displayed).level :=
  c2_band_recs_consistent.1 (fun _ => Except.ok 0.35) none [] exampleRecord 0.35
    ⟨0.35, "Moderate Risk", moderateRecs, none⟩ rfl
    (c2_band_recs_consistent.2.2.2.2 [])

/-- Claim C7: when the model exposes no feature importances the
submission still succeeds — the band and its recommendation block are
rendered — while the attribution section is omitted (`factors = none`)
and no error banner is produced. -/
theorem c7_missing_importances :
    ∀ (predict : InputRecord → Except String ℚ) (fns : List String)
      (inp : InputRecord) (p : ℚ),
      predict inp = Except.ok p →
      runSubmission predict none fns inp =
        Outcome.results ⟨p, risk_level p, recommendations (risk_level p), none⟩ := by
  intro predict fns inp p h
  rw [runSubmission, h]
  rfl

/-- Witness for C7 at a concrete stub predictor returning 0.1. -/
theorem c7_missing_importances_witness :
    runSubmission (fun _ => Except.ok 0.1) none ["bmi"] exampleRecord =
      Outcome.results ⟨0.1, risk_level 0.1, recommendations (risk_level 0.1), none⟩ :=
  c7_missing_importances (fun _ => Except.ok 0.1) ["bmi"] exampleRecord 0.1 rfl

/-- Claim C8: a failure raised by the encoder/predictor is caught at the
boundary of the assessment computation (the `try`/`except` of
`src/app.py` lines 61 and 141-142), surfaced as the generic error banner
`"An error occurred: " ++ str(e)`, the predictor is invoked only once (the
embedding calls it exactly once, so no retry occurs), and no partial
result — no band, recommendations or attribution — is rendered. -/
theorem c8_failure_boundary :
    ∀ (predict : InputRecord → Except String ℚ) (imps : Option (List ℚ))
      (fns : List String) (inp : InputRecord) (e : String),
      predict inp = Except.error e →
      runSubmission predict imps fns inp =
        Outcome.errorBanner ("An error occurred: " ++ e) ∧
      ∀ d : Displayed, runSubmission predict imps fns inp ≠ Outcome.results d := by
  intro predict imps fns inp e h
  have h1 : runSubmission predict imps fns inp =
      Outcome.errorBanner ("An error occurred: " ++ e) := by
    rw [runSubmission, h]
  refine ⟨h1, fun d hd => ?_⟩
  rw [h1] at hd
  exact Outcome.noConfusion hd

/-- Witness for C8 at a concrete always-failing predictor. -/
theorem c8_failure_boundary_witness :
    runSubmission (fun _ => Except.error "shape mismatch") none [] exampleRecord =
      Outcome.errorBanner ("An error occurred: " ++ "shape mismatch") :=
  (c8_failure_boundary (fun _ => Except.error "shape mismatch") none []
    exampleRecord "shape mismatch" rfl).1

/-- Claim C3: the attribution ranking orders the rows by importance
weight descending with ties broken by the original DataFrame position
(pandas' descending sort reverses the frame, argsorts it ascending with
a stable kernel, and reverses the result, which makes the descending
sort stable in the original order): pairwise along the ranked rows —
and in particular along the selected top-3 — the later row has strictly
smaller weight or equal weight and strictly larger original position;
moreover the ranked rows are a permutation of the indexed input rows. -/
theorem c3_ranking_stable_descending :
    ∀ rows : List (String × ℚ),
      (top_features rows).Pairwise
        (fun a b => b.2.2 < a.2.2 ∨ (a.2.2 = b.2.2 ∧ a.1 < b.1)) ∧
      (sortValuesDesc rows).Pairwise
        (fun a b => b.2.2 < a.2.2 ∨ (a.2.2 = b.2.2 ∧ a.1 < b.1)) ∧
      List.Perm (sortValuesDesc rows) (enumFromIdx 0 rows) := by
  intro rows
  exact ⟨(pairwise_sortValuesDesc rows).sublist (List.take_sublist 3 _),
    pairwise_sortValuesDesc rows, perm_sortValuesDesc rows⟩

/-- Claim C4: the attribution step keeps only the first 3 rows after
ordering (`top_k = 3` is the hard-coded `.head(3)` of the source), so it
emits at most 3 sentences, and exactly as many sentences as there are
matchable (template-covered, condition-satisfying) features among the
selected top rows — in particular never more than those. -/
theorem c4_top_k_bound :
    ∀ (inp : InputRecord) (rows : List (String × ℚ)),
      top_features rows = (sortValuesDesc rows).take 3 ∧
      (top_features rows).length ≤ 3 ∧
      (key_factors inp rows).length =
        ((top_features rows).filter fun r => (interpret inp r.2.1).isSome).length ∧
      (key_factors inp rows).length ≤ 3 := by
  intro inp rows
  have hlen : (top_features rows).length ≤ 3 := List.length_take_le 3 _
  refine ⟨rfl, hlen, length_filterMap_eq_countMatched _ _, ?_⟩
  exact le_trans (List.length_filterMap_le _ _) hlen

/-- Claim C5: the hypertension and heart-disease templates fire only
when the corresponding raw form flag is `"Yes"`: whatever the ranking,
no hypertension (resp. heart-disease) sentence appears in the output
when the user's flag is negative. -/
theorem c5_conditional_suppression :
    ∀ (inp : InputRecord) (rows : List (String × ℚ)),
      (inp.hypertension ≠ "Yes" →
        Attribution.hypertensionFactor ∉ key_factors inp rows) ∧
      (inp.heart_disease ≠ "Yes" →
        Attribution.heartDiseaseFactor ∉ key_factors inp rows) := by
  intro inp rows
  constructor <;>
    · intro hflag hmem
      obtain ⟨r, hr, hint⟩ := List.mem_filterMap.mp hmem
      unfold interpret at hint
      split_ifs at hint <;> simp_all

/-- Witness for C5: the scenario record (both flags "No") with rankings
that put the flag features on top. -/
theorem c5_conditional_suppression_witness :
    Attribution.hypertensionFactor ∉
      key_factors exampleRecord [("hypertension", 1), ("heart_disease", 1)] ∧
    Attribution.heartDiseaseFactor ∉
      key_factors exampleRecord [("hypertension", 1), ("heart_disease", 1)] :=
  ⟨(c5_conditional_suppression exampleRecord
      [("hypertension", 1), ("heart_disease", 1)]).1 (by decide),
   (c5_conditional_suppression exampleRecord
      [("hypertension", 1), ("heart_disease", 1)]).2 (by decide)⟩

/-- Claim C6: a feature name covered by no template — in particular
`gender` and `smoking_history` — produces no sentence and no error (the
template chain is a total function falling through to `none`); when such
a feature occupies one of the selected top-3 slots the output simply has
fewer than 3 sentences. -/
theorem c6_unmatched_silently_skipped :
    (∀ inp : InputRecord,
      interpret inp "gender" = none ∧ interpret inp "smoking_history" = none) ∧
    (∀ (inp : InputRecord) (rows : List (String × ℚ)) (r : Row),
      r ∈ top_features rows → interpret inp r.2.1 = none →
      (key_factors inp rows).length < 3) := by
  refine ⟨fun inp => ⟨rfl, rfl⟩, ?_⟩
  intro inp rows r hr hnone
  have h1 : (key_factors inp rows).length < (top_features rows).length :=
    length_filterMap_lt_of_none _ _ r hr hnone
  exact lt_of_lt_of_le h1 (List.length_take_le 3 _)

/-- Witness for C6: `gender` ranked first among three features leaves
fewer than 3 sentences. -/
theorem c6_unmatched_silently_skipped_witness :
    (key_factors exampleRecord [("gender", 3), ("bmi", 2), ("age", 1)]).length < 3 :=
  c6_unmatched_silently_skipped.2 exampleRecord [("gender", 3), ("bmi", 2), ("age", 1)]
    (0, ("gender", 3)) (by decide) rfl

/-- Claim C10: each selected feature yields at most one sentence, chosen
by the first matching branch of the case-sensitive substring chain in
source order (HbA1c_level, blood_glucose_level, bmi, age, hypertension,
heart_disease); a name matching several templates gets only the
highest-priority sentence (e.g. "bmi_age" gets the BMI sentence), and
matching is case-sensitive (`"hba1c_level"` matches nothing). -/
theorem c10_first_match_priority :
    ∀ (inp : InputRecord) (name : String),
      (interpret inp name).toList.length ≤ 1 ∧
      (strIn "HbA1c_level" name = true →
        interpret inp name = some (.hba1cFactor inp.hba1c_level)) ∧
      (strIn "HbA1c_level" name = false → strIn "blood_glucose_level" name = true →
        interpret inp name = some (.glucoseFactor inp.blood_glucose_level)) ∧
      (strIn "HbA1c_level" name = false → strIn "blood_glucose_level" name = false →
        strIn "bmi" name = true → interpret inp name = some (.bmiFactor inp.bmi)) ∧
      (strIn "HbA1c_level" name = false → strIn "blood_glucose_level" name = false →
        strIn "bmi" name = false → strIn "age" name = true →
        interpret inp name = some (.ageFactor inp.age)) ∧
      (strIn "HbA1c_level" name = false → strIn "blood_glucose_level" name = false →
        strIn "bmi" name = false → strIn "age" name = false →
        strIn "hypertension" name = true → inp.hypertension = "Yes" →
        interpret inp name = some .hypertensionFactor) ∧
      (strIn "HbA1c_level" name = false → strIn "blood_glucose_level" name = false →
        strIn "bmi" name = false → strIn "age" name = false →
        ¬(strIn "hypertension" name = true ∧ inp.hypertension = "Yes") →
        strIn "heart_disease" name = true → inp.heart_disease = "Yes" →
        interpret inp name = some .heartDiseaseFactor) ∧
      interpret inp "bmi_age" = some (.bmiFactor inp.bmi) ∧
      interpret inp "hba1c_level" = none := by
  intro inp name
  refine ⟨?_, ?_, ?_, ?_, ?_, ?_, ?_, rfl, rfl⟩
  · cases interpret inp name <;> simp
  · intro h1
    simp [interpret, h1]
  · intro h1 h2
    simp [interpret, h1, h2]
  · intro h1 h2 h3
    simp [interpret, h1, h2, h3]
  · intro h1 h2 h3 h4
    simp [interpret, h1, h2, h3, h4]
  · intro h1 h2 h3 h4 h5 h6
    simp [interpret, h1, h2, h3, h4, h5, h6]
  · intro h1 h2 h3 h4 h5 h6 h7
    simp [interpret, h1, h2, h3, h4, h5, h6, h7]

/-- Witness for C10 at the concrete feature name "HbA1c_level". -/
theorem c10_first_match_priority_witness :
    interpret exampleRecord "HbA1c_level" =
      some (.hba1cFactor exampleRecord.hba1c_level) :=
  (c10_first_match_priority exampleRecord "HbA1c_level").2.1 (by decide)
